import Mathlib

/-!
# Still Grateful API — verification of the request-processing pipeline

Shallow embedding of `stillgrateful-api/src/index.ts` (a Cloudflare Worker):
validation → rate-limit → content-filter → delivery → audit-log.

Modelling conventions:
* JavaScript strings are `String` (lists of characters); the ASCII-only
  `toLowerCase`/`toUpperCase`/`trim` operations are embedded character-wise.
* SQL timestamps (`datetime('now')` strings, compared lexicographically in
  ISO format) are embedded as `Int` seconds with the usual order, which the
  ISO textual order agrees with.
* The D1 database is a pair of tables: an association list for `rate_limits`
  (keyed by `sender_hash`) and an append-only list for `sends`.
* External calls (Gemini classifier, Resend mail transport, SHA-256 digest)
  are inputs to the pipeline: the classifier's network outcome is a
  `GeminiResult`, the mail transport's success is a `Bool`, and the digest is
  an arbitrary function `String → String` applied to the sender token.
-/

namespace StillGrateful

/-! ## Constants (src/index.ts lines 15-46) -/

/-- Maximum allowed message length. -/
def MAX_MESSAGE_LENGTH : Nat := 2000

/-- Maximum sends allowed per rate limit window. -/
def MAX_SENDS_PER_WINDOW : Nat := 5

/-- Rate limit window duration in hours. -/
def RATE_LIMIT_WINDOW_HOURS : Nat := 24

/-- Allowed context tags. -/
def VALID_CONTEXT_TAGS : List String :=
  ["former-student", "former-teacher", "old-friend", "former-colleague",
   "former-teammate", "family-member", "mentor", "other"]

/-- Human-readable display names for context tags (`CONTEXT_TAG_DISPLAY_NAMES`).
The source is a total record over the 8-value union type; the catch-all branch
models a lookup that cannot occur after validation. -/
def CONTEXT_TAG_DISPLAY_NAMES (tag : String) : String :=
  if tag = "former-student" then "A former student"
  else if tag = "former-teacher" then "A former teacher"
  else if tag = "old-friend" then "An old friend"
  else if tag = "former-colleague" then "A former colleague"
  else if tag = "former-teammate" then "A former teammate"
  else if tag = "family-member" then "A family member"
  else if tag = "mentor" then "A mentor"
  else "Someone from your past"

/-! ## JavaScript string primitives (character-wise embeddings) -/

/-- JS `String.prototype.trim`: strip whitespace from both ends. -/
def jsTrim (s : String) : String :=
  String.mk (((s.data.dropWhile Char.isWhitespace).reverse.dropWhile
    Char.isWhitespace).reverse)

/-- JS `String.prototype.toLowerCase` (ASCII, character-wise). -/
def jsToLower (s : String) : String :=
  String.mk (s.data.map Char.toLower)

/-- JS `String.prototype.toUpperCase` (ASCII, character-wise). -/
def jsToUpper (s : String) : String :=
  String.mk (s.data.map Char.toUpper)

/-- JS `String.prototype.includes`, on character lists: does `needle` occur
as a contiguous run inside `hay`? -/
def containsSub (needle : List Char) : List Char → Bool
  | [] => needle.isEmpty
  | c :: rest => needle.isPrefixOf (c :: rest) || containsSub needle rest

theorem isPrefixOf_eq_true_iff (n : List Char) :
    ∀ h : List Char, n.isPrefixOf h = true ↔ ∃ t, h = n ++ t := by
  induction n with
  | nil =>
    intro h
    simp [List.isPrefixOf]
  | cons c n ih =>
    intro h
    cases h with
    | nil => simp [List.isPrefixOf]
    | cons d t =>
      simp only [List.isPrefixOf, Bool.and_eq_true, beq_iff_eq, ih t,
        List.cons_append, List.cons.injEq]
      constructor
      · rintro ⟨rfl, u, rfl⟩
        exact ⟨u, rfl, rfl⟩
      · rintro ⟨u, rfl, rfl⟩
        exact ⟨rfl, u, rfl⟩

/-- `containsSub` finds exactly the contiguous occurrences. -/
theorem containsSub_iff (needle : List Char) :
    ∀ hay : List Char,
      containsSub needle hay = true ↔ ∃ a b, hay = a ++ needle ++ b := by
  intro hay
  induction hay with
  | nil =>
    simp only [containsSub, List.isEmpty_iff]
    constructor
    · rintro rfl
      exact ⟨[], [], rfl⟩
    · rintro ⟨a, b, hab⟩
      rcases List.append_eq_nil.mp hab.symm with ⟨h1, h2⟩
      exact (List.append_eq_nil.mp h1).2
  | cons c rest ih =>
    simp only [containsSub, Bool.or_eq_true, isPrefixOf_eq_true_iff, ih]
    constructor
    · rintro (⟨t, ht⟩ | ⟨a, b, hab⟩)
      · exact ⟨[], t, by simpa using ht⟩
      · exact ⟨c :: a, b, by simp [hab]⟩
    · rintro ⟨a, b, hab⟩
      cases a with
      | nil =>
        exact Or.inl ⟨b, by simpa using hab⟩
      | cons a0 as =>
        simp only [List.cons_append, List.cons.injEq] at hab
        exact Or.inr ⟨as, b, hab.2⟩

/-! ## Identity hashing helpers (src/index.ts lines 109-130) -/

/-- JS `String.prototype.split` with a one-character separator, on character
lists. Always returns at least one part. -/
def splitOnChar (sep : Char) : List Char → List (List Char)
  | [] => [[]]
  | c :: rest =>
    if c == sep then [] :: splitOnChar sep rest
    else
      match splitOnChar sep rest with
      | [] => [[c]]
      | h :: t => (c :: h) :: t

/-- `extractDomain`: split the email at `@`; if there is more than one part,
return the lower-cased second part (`parts[1].toLowerCase()`), else the empty
string. -/
def extractDomain (email : String) : String :=
  match splitOnChar '@' email.data with
  | _ :: second :: _ => String.mk (second.map Char.toLower)
  | _ => ""

/-- A character allowed by the class `[^\s@]` of the email regex. -/
def emailChar (c : Char) : Bool :=
  !c.isWhitespace && !(c == '@')

/-- `isValidEmail`: matcher for the anchored regex `^[^\s@]+@[^\s@]+\.[^\s@]+$`.
Since `[^\s@]` excludes `@`, a match must contain exactly one `@`, i.e. the
split at `@` has exactly two parts: a non-empty local part of `[^\s@]`
characters, and a domain part of `[^\s@]` characters containing a `.` that has
at least one character on each side. -/
def isValidEmail (email : String) : Bool :=
  match splitOnChar '@' email.data with
  | [localPart, domainPart] =>
    !localPart.isEmpty
      && localPart.all emailChar
      && domainPart.all emailChar
      && ((domainPart.drop 1).dropLast.contains '.')
  | _ => false

/-- `isValidContextTag`: membership in the fixed tag list. -/
def isValidContextTag (tag : String) : Bool :=
  VALID_CONTEXT_TAGS.contains tag

theorem toNat_toLower_not_upper (c : Char) :
    ¬(65 ≤ (Char.toLower c).toNat ∧ (Char.toLower c).toNat ≤ 90) := by
  unfold Char.toLower
  by_cases h : 65 ≤ c.toNat ∧ c.toNat ≤ 90
  · rw [if_pos h]
    have hval : (c.toNat + 32).isValidChar := Or.inl (by omega)
    have : (Char.ofNat (c.toNat + 32)).toNat = c.toNat + 32 := by
      rw [Char.ofNat, dif_pos hval]
      rfl
    rw [this]
    omega
  · rw [if_neg h]
    omega

/-- `Char.toLower` is idempotent. -/
theorem toLower_toLower (c : Char) :
    Char.toLower (Char.toLower c) = Char.toLower c := by
  have h := toNat_toLower_not_upper c
  conv_lhs => rw [Char.toLower]
  rw [if_neg h]

theorem map_toLower_toLower (l : List Char) :
    (l.map Char.toLower).map Char.toLower = l.map Char.toLower := by
  induction l with
  | nil => rfl
  | cons c t ih => simp only [List.map_cons, ih, toLower_toLower]

theorem jsToLower_idem (s : String) : jsToLower (jsToLower s) = jsToLower s := by
  simp only [jsToLower]
  exact congrArg String.mk (map_toLower_toLower s.data)

/-- C9: a string accepted by `isValidEmail` yields from `extractDomain` a
non-empty domain that is already lower-cased (lower-casing it again changes
nothing): the regex guarantees exactly one `@` with non-empty text on each
side, so the split-at-`@` extraction cannot produce the empty string. -/
theorem extractDomain_of_isValidEmail (s : String)
    (h : isValidEmail s = true) :
    extractDomain s ≠ "" ∧ jsToLower (extractDomain s) = extractDomain s := by
  unfold isValidEmail at h
  cases hsplit : splitOnChar '@' s.data with
  | nil => rw [hsplit] at h; simp at h
  | cons first rest =>
    cases rest with
    | nil => rw [hsplit] at h; simp at h
    | cons second rest2 =>
      cases rest2 with
      | cons third rest3 => rw [hsplit] at h; simp at h
      | nil =>
        rw [hsplit] at h
        simp only [Bool.and_eq_true] at h
        have hdot := h.2
        have hne : second ≠ [] := by
          intro hnil
          rw [hnil] at hdot
          simp [List.contains] at hdot
        have hdom : extractDomain s = String.mk (second.map Char.toLower) := by
          unfold extractDomain
          rw [hsplit]
        rw [hdom]
        constructor
        · intro hempty
          apply hne
          have hdata := congrArg String.data hempty
          exact List.map_eq_nil_iff.mp hdata
        · exact congrArg String.mk (map_toLower_toLower second)

/-- Witness for C9 at a concrete address. -/
theorem extractDomain_of_isValidEmail_witness :
    isValidEmail "user@Example.com" = true ∧
      extractDomain "user@Example.com" ≠ "" ∧
      jsToLower (extractDomain "user@Example.com") =
        extractDomain "user@Example.com" :=
  ⟨by decide, (extractDomain_of_isValidEmail "user@Example.com" (by decide)).1,
    (extractDomain_of_isValidEmail "user@Example.com" (by decide)).2⟩

/-! ## Content filter (src/index.ts lines 240-295, `filterMessage`)

The single outbound Gemini call is modelled by its observable outcome. -/

/-- Outcome of the classifier HTTP call:
* `fetchError` — `fetch` threw (network failure / timeout), caught by the
  surrounding `try`;
* `httpError`  — the call returned with `response.ok` false;
* `success`    — a 2xx response; the payload
  `candidates?.[0]?.content?.parts?.[0]?.text` is `some` text when present and
  `none` when any link of that optional chain is missing. -/
inductive GeminiResult where
  | fetchError : GeminiResult
  | httpError (status : Nat) (body : String) : GeminiResult
  | success (text : Option String) : GeminiResult

/-- `filterMessage`: map the classifier outcome to allow (`true`) / deny
(`false`). The message itself only flows into the outbound request payload,
never into the verdict computation, so the embedding ignores it. -/
def filterMessage (message : String) (result : GeminiResult) : Bool :=
  match result with
  | .fetchError => true
  | .httpError _ _ => true
  | .success text =>
    match text.map (fun t => jsToUpper (jsTrim t)) with
    | none => true
    | some content =>
      if content = "" then true
      else !(containsSub "REJECT".data content.data)

theorem filterMessage_deny_iff (message : String) (result : GeminiResult) :
    filterMessage message result = false ↔
      ∃ t, result = .success (some t) ∧
        containsSub "REJECT".data (jsToUpper (jsTrim t)).data = true := by
  cases result with
  | fetchError => simp [filterMessage]
  | httpError status body => simp [filterMessage]
  | success text =>
    cases text with
    | none => simp [filterMessage]
    | some t =>
      simp only [filterMessage, Option.map_some', GeminiResult.success.injEq,
        Option.some.injEq, exists_eq_left']
      by_cases hempty : jsToUpper (jsTrim t) = ""
      · rw [if_pos hempty]
        simp only [Bool.true_eq_false, false_iff]
        rw [hempty]
        decide
      · rw [if_neg hempty]
        simp only [Bool.not_eq_false']

/-- C2: `filterMessage` is fail-open — it returns deny (`false`) exactly when
the call succeeded with a parseable text whose trimmed upper-casing contains
the literal marker `REJECT`; every failure, thrown error, or unparseable /
empty body yields allow (`true`). -/
theorem filterMessage_failOpen (message : String) (result : GeminiResult) :
    filterMessage message result = false ↔
      ∃ t, result = .success (some t) ∧
        containsSub "REJECT".data (jsToUpper (jsTrim t)).data = true :=
  filterMessage_deny_iff message result

/-- Occurrences of `REJECT` in an upper-cased character list correspond to
runs of the original list that upper-case to `REJECT`. -/
theorem containsSub_map_toUpper (l : List Char) :
    containsSub "REJECT".data (l.map Char.toUpper) = true ↔
      ∃ a w b, l = a ++ w ++ b ∧ w.map Char.toUpper = "REJECT".data := by
  rw [containsSub_iff]
  constructor
  · rintro ⟨A, B, hAB⟩
    rw [List.append_assoc, List.map_eq_append_iff] at hAB
    obtain ⟨a, rest, rfl, hA, hrest⟩ := hAB
    rw [List.map_eq_append_iff] at hrest
    obtain ⟨w, b, rfl, hw, hb⟩ := hrest
    exact ⟨a, w, b, by rw [List.append_assoc], hw⟩
  · rintro ⟨a, w, b, rfl, hw⟩
    refine ⟨a.map Char.toUpper, b.map Char.toUpper, ?_⟩
    simp only [List.map_append, hw]

/-- C10: the verdict mapping is case-insensitive and substring-based — for a
successful classifier response carrying text `t`, the verdict is deny exactly
when the trimmed text contains a contiguous run of characters that upper-cases
to `REJECT`; any other text (including one that never says `ALLOW`) is
allowed. -/
theorem filterMessage_caseInsensitive (message t : String) :
    filterMessage message (.success (some t)) = false ↔
      ∃ a w b, (jsTrim t).data = a ++ w ++ b ∧
        w.map Char.toUpper = "REJECT".data := by
  rw [filterMessage_deny_iff]
  simp only [GeminiResult.success.injEq, Option.some.injEq, exists_eq_left']
  have hupper : (jsToUpper (jsTrim t)).data = (jsTrim t).data.map Char.toUpper :=
    rfl
  rw [hupper, containsSub_map_toUpper]

/-! ## Delivery adapter (src/index.ts lines 297-393, `sendEmail` and
`escapeHtml`) -/

/-- The `htmlEscapes` lookup table: the five XSS-sensitive characters and
their HTML entities. -/
def htmlEscapes (c : Char) : Option String :=
  if c = '&' then some "&amp;"
  else if c = '<' then some "&lt;"
  else if c = '>' then some "&gt;"
  else if c = '"' then some "&quot;"
  else if c = '\x27' then some "&#39;"
  else none

/-- One step of `text.replace(/[&<>"']/g, (char) => htmlEscapes[char])`:
a character in the regex class is replaced by its table entry, any other
character is kept. -/
def escapeCharTable (c : Char) : List Char :=
  match htmlEscapes c with
  | some rep => rep.data
  | none => [c]

/-- `escapeHtml`: global regex replacement over the text, character-wise. -/
def escapeHtml (text : String) : String :=
  String.mk (text.data.flatMap escapeCharTable)

/-- Second definition following the spec's words, for comparison: walk the
text and replace each occurrence of the five XSS-sensitive characters
`& < > " '` with its HTML entity. -/
def escapeSpec : List Char → List Char
  | [] => []
  | c :: rest =>
    (if c = '&' then "&amp;".data
     else if c = '<' then "&lt;".data
     else if c = '>' then "&gt;".data
     else if c = '"' then "&quot;".data
     else if c = '\x27' then "&#39;".data
     else [c]) ++ escapeSpec rest

/-- The plain-text email body (template literal at src/index.ts line 308),
embedding the message verbatim. -/
def plainTextBody (displayName message : String) : String :=
  "From: " ++ displayName ++ "\n\n" ++ message ++
    "\n\n---\n\nThis message was sent anonymously through Still Grateful, a service for expressing gratitude without social pressure.\n\nNo reply is expected or possible. The sender chose to remain anonymous.\n\nLearn more at stillgrateful.app"

/-- HTML template chunk before the display name. -/
def HTML_CHUNK_1 : String :=
  "\n<!DOCTYPE html>\n<html>\n<head>\n  <meta charset=\"utf-8\">\n  <meta name=\"viewport\" content=\"width=device-width, initial-scale=1\">\n</head>\n<body style=\"font-family: -apple-system, BlinkMacSystemFont, \x27Segoe UI\x27, Roboto, sans-serif; line-height: 1.6; color: #333; max-width: 600px; margin: 0 auto; padding: 20px;\">\n  <p style=\"color: #666; margin-bottom: 8px;\">From: <strong>"

/-- HTML template chunk between the display name and the escaped message. -/
def HTML_CHUNK_2 : String :=
  "</strong></p>\n  \n  <div style=\"background-color: #f9f9f9; border-left: 4px solid #4a9c6d; padding: 20px; margin: 20px 0; border-radius: 4px;\">\n    <p style=\"margin: 0; white-space: pre-wrap;\">"

/-- HTML template chunk after the escaped message. -/
def HTML_CHUNK_3 : String :=
  "</p>\n  </div>\n  \n  <hr style=\"border: none; border-top: 1px solid #eee; margin: 30px 0;\">\n  \n  <p style=\"color: #888; font-size: 14px;\">\n    This message was sent anonymously through <a href=\"https://stillgrateful.app\" style=\"color: #4a9c6d; text-decoration: none;\">Still Grateful</a>, a service for expressing gratitude without social pressure.\n  </p>\n  \n  <p style=\"color: #888; font-size: 14px;\">\n    No reply is expected or possible. The sender chose to remain anonymous.\n  </p>\n  \n  <p style=\"color: #888; font-size: 14px;\">\n    <a href=\"https://stillgrateful.app\" style=\"color: #4a9c6d; text-decoration: none;\">Learn more at stillgrateful.app</a>\n  </p>\n</body>\n</html>"

/-- The HTML email body (template literal at src/index.ts line 320),
embedding the display name and the escaped message. -/
def htmlBody (displayName message : String) : String :=
  HTML_CHUNK_1 ++ displayName ++ HTML_CHUNK_2 ++ escapeHtml message
    ++ HTML_CHUNK_3

/-- The JSON payload submitted to the Resend API. `fromAddr` and `toAddrs`
are the JSON fields named `from` and `to` in the source. -/
structure EmailPayload where
  fromAddr : String
  toAddrs : List String
  subject : String
  text : String
  html : String

/-- The payload `sendEmail` builds for one outbound email. -/
def emailPayload (recipientEmail contextTag message : String) : EmailPayload :=
  let displayName := CONTEXT_TAG_DISPLAY_NAMES contextTag
  { fromAddr := "Still Grateful <hello@stillgrateful.app>"
    toAddrs := [recipientEmail]
    subject := "Someone is grateful for you"
    text := plainTextBody displayName message
    html := htmlBody displayName message }

/-- `sendEmail`: submit the payload over the single synchronous Resend call;
the call's success (`response.ok`, with thrown errors mapping to `false`)
is the external input `transportOk`. -/
def sendEmail (recipientEmail contextTag message : String)
    (transportOk : Bool) : Bool :=
  transportOk

theorem escapeCharTable_eq (c : Char) :
    escapeCharTable c =
      (if c = '&' then "&amp;".data
       else if c = '<' then "&lt;".data
       else if c = '>' then "&gt;".data
       else if c = '"' then "&quot;".data
       else if c = '\x27' then "&#39;".data
       else [c]) := by
  unfold escapeCharTable htmlEscapes
  split_ifs <;> rfl

theorem escapeHtml_data_eq_spec (l : List Char) :
    l.flatMap escapeCharTable = escapeSpec l := by
  induction l with
  | nil => rfl
  | cons c rest ih =>
    rw [List.flatMap_cons, ih, escapeCharTable_eq]
    rfl

theorem escapeCharTable_no_xss (a c : Char) (hmem : c ∈ escapeCharTable a) :
    c ≠ '<' ∧ c ≠ '>' ∧ c ≠ '"' ∧ c ≠ '\x27' := by
  rw [escapeCharTable_eq] at hmem
  split_ifs at hmem with h1 h2 h3 h4 h5
  · fin_cases hmem <;> refine ⟨?_, ?_, ?_, ?_⟩ <;> decide
  · fin_cases hmem <;> refine ⟨?_, ?_, ?_, ?_⟩ <;> decide
  · fin_cases hmem <;> refine ⟨?_, ?_, ?_, ?_⟩ <;> decide
  · fin_cases hmem <;> refine ⟨?_, ?_, ?_, ?_⟩ <;> decide
  · fin_cases hmem <;> refine ⟨?_, ?_, ?_, ?_⟩ <;> decide
  · rw [List.mem_singleton] at hmem
    subst hmem
    exact ⟨h2, h3, h4, h5⟩

/-- C8: the plain-text body embeds the message verbatim, the HTML body embeds
the message only after `escapeHtml`, and `escapeHtml` replaces each
occurrence of the five XSS-sensitive characters `& < > " '` with its HTML
entity — in particular its output never contains a raw `<`, `>`, `"` or
`'`. -/
theorem email_bodies_escape (recipientEmail contextTag message : String) :
    (∃ pre suf, (emailPayload recipientEmail contextTag message).text.data
        = pre ++ message.data ++ suf) ∧
    (∃ pre suf, (emailPayload recipientEmail contextTag message).html.data
        = pre ++ (escapeHtml message).data ++ suf) ∧
    escapeHtml message = String.mk (escapeSpec message.data) ∧
    (∀ c ∈ (escapeHtml message).data,
      c ≠ '<' ∧ c ≠ '>' ∧ c ≠ '"' ∧ c ≠ '\x27') := by
  refine ⟨?_, ?_, ?_, ?_⟩
  · refine ⟨("From: " ++ CONTEXT_TAG_DISPLAY_NAMES contextTag ++ "\n\n").data,
      ("\n\n---\n\nThis message was sent anonymously through Still Grateful, a service for expressing gratitude without social pressure.\n\nNo reply is expected or possible. The sender chose to remain anonymous.\n\nLearn more at stillgrateful.app" : String).data, ?_⟩
    simp [emailPayload, plainTextBody, List.append_assoc]
  · refine ⟨(HTML_CHUNK_1 ++ CONTEXT_TAG_DISPLAY_NAMES contextTag
      ++ HTML_CHUNK_2).data, HTML_CHUNK_3.data, ?_⟩
    simp [emailPayload, htmlBody, List.append_assoc]
  · exact congrArg String.mk (escapeHtml_data_eq_spec message.data)
  · intro c hc
    have : c ∈ message.data.flatMap escapeCharTable := hc
    rw [List.mem_flatMap] at this
    obtain ⟨a, _, hmem⟩ := this
    exact escapeCharTable_no_xss a c hmem

/-! ## Persistent state (migrations/0001_initial_schema.sql) and the rate
limiter (src/index.ts lines 192-238, `checkRateLimit`) -/

/-- A row of the `rate_limits` table (minus its key `sender_hash`). -/
structure RateLimitRecord where
  send_count : Nat
  window_start : Int
  deriving DecidableEq

/-- A row of the append-only `sends` audit table (minus the autoincrement
id). -/
structure SendRecord where
  sender_hash : String
  recipient_domain : String
  context_tag : String
  status : String
  created_at : Int
  deriving DecidableEq

/-- The D1 database: `rate_limits` keyed by `sender_hash`, and the
append-only `sends` log. -/
structure DBState where
  rate_limits : List (String × RateLimitRecord)
  sends : List SendRecord
  deriving DecidableEq

/-- `SELECT send_count, window_start FROM rate_limits WHERE sender_hash = ?`
followed by `.first()`. -/
def selectRateLimit (db : DBState) (senderHash : String) :
    Option RateLimitRecord :=
  (db.rate_limits.find? (fun p => p.1 == senderHash)).map (·.2)

/-- `INSERT INTO rate_limits (sender_hash, send_count, window_start)
VALUES (?, 1, datetime('now'))`. -/
def insertRateLimit (db : DBState) (senderHash : String) (now : Int) :
    DBState :=
  { db with rate_limits := db.rate_limits ++ [(senderHash, ⟨1, now⟩)] }

/-- `UPDATE rate_limits SET send_count = 1, window_start = datetime('now')
WHERE sender_hash = ?`. -/
def resetRateLimit (db : DBState) (senderHash : String) (now : Int) :
    DBState :=
  { db with rate_limits :=
      db.rate_limits.map (fun p => if p.1 == senderHash then (p.1, ⟨1, now⟩) else p) }

/-- `UPDATE rate_limits SET send_count = send_count + 1
WHERE sender_hash = ?`. -/
def incrementRateLimit (db : DBState) (senderHash : String) : DBState :=
  { db with rate_limits :=
      db.rate_limits.map (fun p => if p.1 == senderHash then (p.1, ⟨p.2.send_count + 1, p.2.window_start⟩) else p) }

/-- `checkRateLimit`: fixed-window counter. `now` is the request time in
seconds; the cutoff `now - RATE_LIMIT_WINDOW_HOURS * 3600` embeds the
ISO-formatted `windowStartStr`, whose lexicographic comparison with the
stored `window_start` agrees with the numeric order. Returns
(allowed?, updated database). -/
def checkRateLimit (db : DBState) (now : Int) (senderHash : String) :
    Bool × DBState :=
  let windowStartCutoff : Int := now - RATE_LIMIT_WINDOW_HOURS * 3600
  match selectRateLimit db senderHash with
  | none => (true, insertRateLimit db senderHash now)
  | some record =>
    if record.window_start < windowStartCutoff then
      (true, resetRateLimit db senderHash now)
    else if record.send_count < MAX_SENDS_PER_WINDOW then
      (true, incrementRateLimit db senderHash)
    else
      (false, db)

/-- `logSend`: `INSERT INTO sends (sender_hash, recipient_domain,
context_tag, status) VALUES (?, ?, ?, ?)`, with `created_at` defaulted to
`datetime('now')`. The source catches and suppresses write failures; the
model records the successful write. -/
def logSend (db : DBState) (senderHash recipientDomain contextTag
    status : String) (now : Int) : DBState :=
  { db with sends := db.sends ++
      [⟨senderHash, recipientDomain, contextTag, status, now⟩] }

theorem checkRateLimit_branches (db : DBState) (now : Int)
    (senderHash : String) :
    (selectRateLimit db senderHash = none →
      checkRateLimit db now senderHash =
        (true, { db with rate_limits :=
          db.rate_limits ++ [(senderHash, ⟨1, now⟩)] })) ∧
    (∀ r, selectRateLimit db senderHash = some r →
      r.window_start < now - 24 * 3600 →
      checkRateLimit db now senderHash =
        (true, { db with rate_limits :=
          db.rate_limits.map (fun p => if p.1 == senderHash then (p.1, ⟨1, now⟩) else p) })) ∧
    (∀ r, selectRateLimit db senderHash = some r →
      ¬(r.window_start < now - 24 * 3600) → r.send_count < 5 →
      checkRateLimit db now senderHash =
        (true, { db with rate_limits :=
          db.rate_limits.map (fun p => if p.1 == senderHash then (p.1, ⟨p.2.send_count + 1, p.2.window_start⟩) else p) })) ∧
    (∀ r, selectRateLimit db senderHash = some r →
      ¬(r.window_start < now - 24 * 3600) → ¬(r.send_count < 5) →
      checkRateLimit db now senderHash = (false, db)) := by
  have hwin : (RATE_LIMIT_WINDOW_HOURS : Int) * 3600 = 24 * 3600 := by
    norm_num [RATE_LIMIT_WINDOW_HOURS]
  refine ⟨?_, ?_, ?_, ?_⟩
  · intro hnone
    unfold checkRateLimit
    rw [hnone]
    rfl
  · intro r hsome hexp
    unfold checkRateLimit
    rw [hsome]
    simp only [hwin]
    rw [if_pos (by exact_mod_cast hexp)]
    rfl
  · intro r hsome hexp hcount
    unfold checkRateLimit
    rw [hsome]
    simp only [hwin]
    rw [if_neg (by exact_mod_cast hexp),
      if_pos (by simpa [MAX_SENDS_PER_WINDOW] using hcount)]
    rfl
  · intro r hsome hexp hcount
    unfold checkRateLimit
    rw [hsome]
    simp only [hwin]
    rw [if_neg (by exact_mod_cast hexp),
      if_neg (by simpa [MAX_SENDS_PER_WINDOW] using hcount)]

/-- C3: `checkRateLimit` is a fixed-window counter with window length
24 hours and cap 5: no record → create `(count 1, window_start now)` and
allow; expired window (`window_start` older than `now` minus 24 h) → reset to
`(count 1, window_start now)` and allow; count below 5 → increment the count
and allow; otherwise deny. -/
theorem checkRateLimit_fixedWindow (db : DBState) (now : Int)
    (senderHash : String) :
    (selectRateLimit db senderHash = none →
      checkRateLimit db now senderHash =
        (true, { db with rate_limits :=
          db.rate_limits ++ [(senderHash, ⟨1, now⟩)] })) ∧
    (∀ r, selectRateLimit db senderHash = some r →
      r.window_start < now - 24 * 3600 →
      checkRateLimit db now senderHash =
        (true, { db with rate_limits :=
          db.rate_limits.map (fun p => if p.1 == senderHash then (p.1, ⟨1, now⟩) else p) })) ∧
    (∀ r, selectRateLimit db senderHash = some r →
      ¬(r.window_start < now - 24 * 3600) → r.send_count < 5 →
      checkRateLimit db now senderHash =
        (true, { db with rate_limits :=
          db.rate_limits.map (fun p => if p.1 == senderHash then (p.1, ⟨p.2.send_count + 1, p.2.window_start⟩) else p) })) ∧
    (∀ r, selectRateLimit db senderHash = some r →
      ¬(r.window_start < now - 24 * 3600) → ¬(r.send_count < 5) →
      checkRateLimit db now senderHash = (false, db)) :=
  checkRateLimit_branches db now senderHash

/-- Witness for C3: all four branches exercised at concrete states. -/
theorem checkRateLimit_fixedWindow_witness :
    checkRateLimit ⟨[], []⟩ 100000 "a" =
      (true, { rate_limits := [("a", ⟨1, 100000⟩)], sends := [] }) ∧
    checkRateLimit ⟨[("a", ⟨3, 0⟩)], []⟩ 100000 "a" =
      (true, { rate_limits := [("a", ⟨1, 100000⟩)], sends := [] }) ∧
    checkRateLimit ⟨[("a", ⟨3, 50000⟩)], []⟩ 100000 "a" =
      (true, { rate_limits := [("a", ⟨4, 50000⟩)], sends := [] }) ∧
    checkRateLimit ⟨[("a", ⟨5, 50000⟩)], []⟩ 100000 "a" =
      (false, ⟨[("a", ⟨5, 50000⟩)], []⟩) := by
  refine ⟨?_, ?_, ?_, ?_⟩
  · rw [(checkRateLimit_fixedWindow ⟨[], []⟩ 100000 "a").1 (by decide)]
    decide
  · rw [(checkRateLimit_fixedWindow ⟨[("a", ⟨3, 0⟩)], []⟩ 100000 "a").2.1
      ⟨3, 0⟩ (by decide) (by decide)]
    decide
  · rw [(checkRateLimit_fixedWindow ⟨[("a", ⟨3, 50000⟩)], []⟩ 100000
      "a").2.2.1 ⟨3, 50000⟩ (by decide) (by decide) (by decide)]
    decide
  · exact (checkRateLimit_fixedWindow ⟨[("a", ⟨5, 50000⟩)], []⟩ 100000
      "a").2.2.2 ⟨5, 50000⟩ (by decide) (by decide) (by decide)

/-- C7: when the stored record has a current (non-expired) window and a count
at or above the cap of 5, `checkRateLimit` denies and performs no mutation:
the returned state is the input state, so the record's count and
`window_start` are unchanged. -/
theorem checkRateLimit_deny_no_mutation (db : DBState) (now : Int)
    (senderHash : String) (r : RateLimitRecord)
    (hfound : selectRateLimit db senderHash = some r)
    (hcurrent : ¬(r.window_start < now - 24 * 3600))
    (hcap : 5 ≤ r.send_count) :
    checkRateLimit db now senderHash = (false, db) :=
  (checkRateLimit_branches db now senderHash).2.2.2 r hfound hcurrent
    (by omega)

/-- Witness for C7 at a concrete full-window state. -/
theorem checkRateLimit_deny_no_mutation_witness :
    checkRateLimit ⟨[("h", ⟨6, 90000⟩)], []⟩ 100000 "h" =
      (false, ⟨[("h", ⟨6, 90000⟩)], []⟩) :=
  checkRateLimit_deny_no_mutation ⟨[("h", ⟨6, 90000⟩)], []⟩ 100000 "h"
    ⟨6, 90000⟩ (by decide) (by decide) (by decide)

/-! ## Validator (src/index.ts lines 136-190, `validateRequest`) -/

/-- An untyped JSON value as produced by `request.json()` (plus `undefined` for
missing object fields). -/
inductive JSValue where
  | undefined : JSValue
  | null : JSValue
  | bool (b : Bool) : JSValue
  | num (n : Int) : JSValue
  | str (s : String) : JSValue
  | arr (elems : List JSValue) : JSValue
  | obj (fields : List (String × JSValue)) : JSValue

/-- JS truthiness of a value. -/
def JSValue.truthy : JSValue → Bool
  | .undefined => false
  | .null => false
  | .bool b => b
  | .num n => !(n == 0)
  | .str s => !(s == "")
  | .arr _ => true
  | .obj _ => true

/-- JS `typeof x === 'object'` (true for `null`, arrays and objects). -/
def JSValue.isObjectType : JSValue → Bool
  | .null => true
  | .arr _ => true
  | .obj _ => true
  | _ => false

/-- JS property access `x[key]`: first matching object field, else
`undefined`. -/
def JSValue.getField : JSValue → String → JSValue
  | .obj fields, key =>
    match fields.find? (fun p => p.1 == key) with
    | some p => p.2
    | none => .undefined
  | _, _ => .undefined

/-- The normalized request produced by a successful validation. -/
structure SendRequest where
  message : String
  recipient_email : String
  context_tag : String
  sender_token : String
  deriving DecidableEq

/-- Result type of `validateRequest`:
`{ valid: true; data }` or `{ valid: false; reason }`. -/
inductive ValidationResult where
  | valid (data : SendRequest) : ValidationResult
  | invalid (reason : String) : ValidationResult
  deriving DecidableEq

/-- The required-field test `typeof v === 'string' && v.trim()` truthy:
`v` is a string whose trim is non-empty. -/
def strOk (v : JSValue) : Bool :=
  match v with
  | .str s => !((jsTrim s).isEmpty)
  | _ => false

/-- The string carried by a `str` value (only read after `strOk`). -/
def strVal (v : JSValue) : String :=
  match v with
  | .str s => s
  | _ => ""

/-- The email-format test applied to the raw field. -/
def strValidEmail (v : JSValue) : Bool :=
  match v with
  | .str s => isValidEmail s
  | _ => false

/-- The tag-membership test applied to the raw field. -/
def strValidTag (v : JSValue) : Bool :=
  match v with
  | .str s => isValidContextTag s
  | _ => false

/-- Reason string for an out-of-range context tag
(`Invalid context tag. Must be one of: ${VALID_CONTEXT_TAGS.join(', ')}.`). -/
def INVALID_TAG_REASON : String :=
  "Invalid context tag. Must be one of: "
    ++ String.intercalate ", " VALID_CONTEXT_TAGS ++ "."

/-- `validateRequest`: the source's checks in source order — object shape,
presence of the four fields, then message length, email format and tag
membership — returning the normalized request (trimmed strings, lower-cased
email) or the first failure reason. -/
def validateRequest (body : JSValue) : ValidationResult :=
  if !(body.truthy && body.isObjectType) then
    .invalid "Request body must be a JSON object."
  else
    let message := body.getField "message"
    let recipientEmail := body.getField "recipient_email"
    let contextTag := body.getField "context_tag"
    let senderToken := body.getField "sender_token"
    if !(strOk message) then
      .invalid "Message is required and must be a non-empty string."
    else if !(strOk recipientEmail) then
      .invalid "Recipient email is required."
    else if !(strOk contextTag) then
      .invalid "Context tag is required."
    else if !(strOk senderToken) then
      .invalid "Sender token is required."
    else if (strVal message).length > MAX_MESSAGE_LENGTH then
      .invalid "Message must be 2000 characters or less."
    else if !(strValidEmail recipientEmail) then
      .invalid "Invalid email address format."
    else if !(strValidTag contextTag) then
      .invalid INVALID_TAG_REASON
    else
      .valid ⟨jsTrim (strVal message),
        jsToLower (jsTrim (strVal recipientEmail)),
        strVal contextTag,
        jsTrim (strVal senderToken)⟩

/-- Second definition following the spec's words, for comparison: perform
the checks in the order the spec states them — structured object; message a
non-empty string within the maximum length; recipient a syntactically valid
email; tag in the enumerated set; sender token a non-empty string — failing
fast on the first violated check. -/
def validateRequestSpecOrder (body : JSValue) : ValidationResult :=
  if !(body.truthy && body.isObjectType) then
    .invalid "Request body must be a JSON object."
  else
    let message := body.getField "message"
    let recipientEmail := body.getField "recipient_email"
    let contextTag := body.getField "context_tag"
    let senderToken := body.getField "sender_token"
    if !(strOk message) then
      .invalid "Message is required and must be a non-empty string."
    else if (strVal message).length > MAX_MESSAGE_LENGTH then
      .invalid "Message must be 2000 characters or less."
    else if !(strValidEmail recipientEmail) then
      .invalid "Invalid email address format."
    else if !(strValidTag contextTag) then
      .invalid INVALID_TAG_REASON
    else if !(strOk senderToken) then
      .invalid "Sender token is required."
    else
      .valid ⟨jsTrim (strVal message),
        jsToLower (jsTrim (strVal recipientEmail)),
        strVal contextTag,
        jsTrim (strVal senderToken)⟩

/-- A payload whose sender token is empty and whose recipient email is
malformed: the spec's check order reports the email first, the code reports
the token first. -/
def orderWitnessBody : JSValue :=
  .obj [("message", .str "hi"),
        ("recipient_email", .str "not-an-email"),
        ("context_tag", .str "mentor"),
        ("sender_token", .str "")]

/-- Counterexample to C6: on `orderWitnessBody` the code's first violated
check is the sender-token presence check, not (as the claimed order demands)
the email-syntax check, so `validateRequest` does not perform its checks in
the spec's stated order. -/
theorem validateRequest_order_counterexample :
    validateRequest orderWitnessBody = .invalid "Sender token is required." ∧
    validateRequestSpecOrder orderWitnessBody =
      .invalid "Invalid email address format." ∧
    ("Sender token is required." : String) ≠ "Invalid email address format." :=
  ⟨rfl, rfl, by decide⟩

/-- First reason among a list of (check, reason) pairs whose check failed. -/
def firstFailing : List (Bool × String) → Option String
  | [] => none
  | (ok, reason) :: rest => if ok then firstFailing rest else some reason

/-- C6 (amended): `validateRequest` fails fast on the first violated check,
but in the source's order — object shape; message, recipient, tag and token
present and non-empty; then message length; then email format; then tag
membership — and otherwise returns the normalized request. -/
theorem validateRequest_check_order (body : JSValue) :
    validateRequest body =
      match firstFailing
        [(body.truthy && body.isObjectType,
          "Request body must be a JSON object."),
         (strOk (body.getField "message"),
          "Message is required and must be a non-empty string."),
         (strOk (body.getField "recipient_email"),
          "Recipient email is required."),
         (strOk (body.getField "context_tag"),
          "Context tag is required."),
         (strOk (body.getField "sender_token"),
          "Sender token is required."),
         (decide ((strVal (body.getField "message")).length
            ≤ MAX_MESSAGE_LENGTH),
          "Message must be 2000 characters or less."),
         (strValidEmail (body.getField "recipient_email"),
          "Invalid email address format."),
         (strValidTag (body.getField "context_tag"),
          INVALID_TAG_REASON)] with
      | some reason => .invalid reason
      | none => .valid ⟨jsTrim (strVal (body.getField "message")),
          jsToLower (jsTrim (strVal (body.getField "recipient_email"))),
          strVal (body.getField "context_tag"),
          jsTrim (strVal (body.getField "sender_token"))⟩ := by
  unfold validateRequest
  cases h1 : body.truthy && body.isObjectType with
  | false => simp [h1, firstFailing]
  | true =>
    cases h2 : strOk (body.getField "message") with
    | false => simp [h1, h2, firstFailing]
    | true =>
      cases h3 : strOk (body.getField "recipient_email") with
      | false => simp [h1, h2, h3, firstFailing]
      | true =>
        cases h4 : strOk (body.getField "context_tag") with
        | false => simp [h1, h2, h3, h4, firstFailing]
        | true =>
          cases h5 : strOk (body.getField "sender_token") with
          | false => simp [h1, h2, h3, h4, h5, firstFailing]
          | true =>
            by_cases h6 : (strVal (body.getField "message")).length
                > MAX_MESSAGE_LENGTH
            · simp [h1, h2, h3, h4, h5, h6, firstFailing, Nat.not_le.mpr h6]
            · cases h7 : strValidEmail (body.getField "recipient_email") with
              | false =>
                simp [h1, h2, h3, h4, h5, h6, h7, firstFailing,
                  Nat.le_of_not_lt h6]
              | true =>
                cases h8 : strValidTag (body.getField "context_tag") with
                | false =>
                  simp [h1, h2, h3, h4, h5, h6, h7, h8, firstFailing,
                    Nat.le_of_not_lt h6]
                | true =>
                  simp [h1, h2, h3, h4, h5, h6, h7, h8, firstFailing,
                    Nat.le_of_not_lt h6]

/-! ## HTTP responses (src/index.ts lines 72-96) and the orchestrator
(src/index.ts lines 422-505, `fetch`) -/

/-- Body of an HTTP response: empty (the 204), plain text (the 404), or the
JSON `ApiResponse` shape `{success, error?, reason?}`. -/
inductive RespBody where
  | empty : RespBody
  | text (s : String) : RespBody
  | json (success : Bool) (error : Option String) (reason : Option String) :
      RespBody
  deriving DecidableEq

/-- An HTTP response: status, headers, body. -/
structure Resp where
  status : Nat
  headers : List (String × String)
  body : RespBody
  deriving DecidableEq

/-- The headers attached by `jsonResponse`. -/
def JSON_CORS_HEADERS : List (String × String) :=
  [("Content-Type", "application/json"),
   ("Access-Control-Allow-Origin", "*"),
   ("Access-Control-Allow-Methods", "POST, OPTIONS"),
   ("Access-Control-Allow-Headers", "Content-Type")]

/-- `jsonResponse`: a JSON response with CORS headers. -/
def jsonResponse (success : Bool) (error reason : Option String)
    (status : Nat) : Resp :=
  ⟨status, JSON_CORS_HEADERS, .json success error reason⟩

/-- `errorResponse`: a failure `ApiResponse`. -/
def errorResponse (error reason : String) (status : Nat) : Resp :=
  jsonResponse false (some error) (some reason) status

/-- The CORS preflight response (`OPTIONS` branch of the handler). -/
def optionsResponse : Resp :=
  ⟨204,
   [("Access-Control-Allow-Origin", "*"),
    ("Access-Control-Allow-Methods", "POST, OPTIONS"),
    ("Access-Control-Allow-Headers", "Content-Type"),
    ("Access-Control-Max-Age", "86400")],
   .empty⟩

/-- The `Not Found` response for unhandled method/path combinations. -/
def notFoundResponse : Resp :=
  ⟨404, [], .text "Not Found"⟩

/-- Steps 2-6 of the handler, after validation: hash the sender token, check
the rate limit, run the content filter, send the email, and log exactly one
audit record for the terminal outcome. `hash` embeds the SHA-256 digest
`hashString`, `geminiR` the classifier outcome, `resendOk` the mail
transport outcome. -/
def handleSend (hash : String → String) (db : DBState) (now : Int)
    (req : SendRequest) (geminiR : GeminiResult) (resendOk : Bool) :
    Resp × DBState :=
  let senderHash := hash req.sender_token
  let recipientDomain := extractDomain req.recipient_email
  let checked := checkRateLimit db now senderHash
  let withinRateLimit := checked.1
  let db1 := checked.2
  if !withinRateLimit then
    (errorResponse "rate_limited"
      "You\x27ve sent too many messages today. Please try again tomorrow."
      429,
     logSend db1 senderHash recipientDomain req.context_tag "rejected" now)
  else
    let isAllowed := filterMessage req.message geminiR
    if !isAllowed then
      (errorResponse "message_rejected"
        "This message doesn\x27t appear to be expressing gratitude." 400,
       logSend db1 senderHash recipientDomain req.context_tag "rejected" now)
    else
      let emailSent := sendEmail req.recipient_email req.context_tag
        req.message resendOk
      if !emailSent then
        (errorResponse "server_error"
          "Failed to send email. Please try again later." 500,
         logSend db1 senderHash recipientDomain req.context_tag "error" now)
      else
        (jsonResponse true none none 200,
         logSend db1 senderHash recipientDomain req.context_tag "sent" now)

/-- Result of one request through the worker's `fetch` handler. `hashCalls`
counts the `hashString` invocations performed on the request path. -/
structure FetchOutcome where
  resp : Resp
  db : DBState
  hashCalls : Nat
  deriving DecidableEq

/-- The worker's `fetch` handler: CORS preflight for any `OPTIONS` request,
404 for anything that is not `POST /send`, then JSON parsing (`parsed` is
`none` when `request.json()` throws), validation, and `handleSend`. -/
def handleFetch (hash : String → String) (db : DBState) (now : Int)
    (method : String) (path : String) (parsed : Option JSValue)
    (geminiR : GeminiResult) (resendOk : Bool) : FetchOutcome :=
  if method == "OPTIONS" then
    ⟨optionsResponse, db, 0⟩
  else if !(method == "POST") || !(path == "/send") then
    ⟨notFoundResponse, db, 0⟩
  else
    match parsed with
    | none =>
      ⟨errorResponse "validation_error" "Invalid JSON in request body." 400,
        db, 0⟩
    | some body =>
      match validateRequest body with
      | .invalid reason =>
        ⟨errorResponse "validation_error" reason 400, db, 0⟩
      | .valid data =>
        let result := handleSend hash db now data geminiR resendOk
        ⟨result.1, result.2, 1⟩

/-- C1: the persistent state after the pipeline does not depend on the
message text — neither the rate-limit write nor the audit-log write takes or
stores the message body, so two requests that differ only in their message
(under the same external outcomes) leave the database identical. -/
theorem message_never_persisted (hash : String → String) (db : DBState)
    (now : Int) (recipientEmail contextTag senderToken m1 m2 : String)
    (geminiR : GeminiResult) (resendOk : Bool) :
    (handleSend hash db now ⟨m1, recipientEmail, contextTag, senderToken⟩
      geminiR resendOk).2 =
    (handleSend hash db now ⟨m2, recipientEmail, contextTag, senderToken⟩
      geminiR resendOk).2 := by
  have hfilter : filterMessage m1 geminiR = filterMessage m2 geminiR := by
    cases geminiR <;> rfl
  unfold handleSend
  simp only [sendEmail, hfilter]

theorem checkRateLimit_sends_eq (db : DBState) (now : Int)
    (senderHash : String) :
    ((checkRateLimit db now senderHash).2).sends = db.sends := by
  unfold checkRateLimit insertRateLimit resetRateLimit incrementRateLimit
  cases selectRateLimit db senderHash with
  | none => rfl
  | some r =>
    dsimp only
    split_ifs <;> rfl

/-- Second definition following the spec's words: the audit status the spec
pairs with each terminal response — `rejected` for the rate-limit and
content-filter rejections, `error` for delivery failure, `sent` for
success. -/
def specAuditStatus (r : Resp) : Option String :=
  match r.body with
  | .json true _ _ => some "sent"
  | .json false (some e) _ =>
    if e = "rate_limited" || e = "message_rejected" then some "rejected"
    else if e = "server_error" then some "error"
    else none
  | _ => none

/-- C4: a `POST /send` request that passes validation writes exactly one
audit record — keyed by the hashed sender token and recipient domain, with
status matching the terminal outcome (`rejected`, `error` or `sent`) — while
a request that fails validation (unparseable JSON included) performs no
hashing and leaves the database untouched. -/
theorem handleFetch_audit_once (hash : String → String) (db : DBState)
    (now : Int) (parsed : Option JSValue) (geminiR : GeminiResult)
    (resendOk : Bool) :
    (∀ body data, parsed = some body → validateRequest body = .valid data →
      ∃ st,
        (handleFetch hash db now "POST" "/send" parsed geminiR
            resendOk).db.sends
          = db.sends ++ [⟨hash data.sender_token,
              extractDomain data.recipient_email, data.context_tag,
              st, now⟩] ∧
        specAuditStatus (handleFetch hash db now "POST" "/send" parsed
          geminiR resendOk).resp = some st) ∧
    ((parsed = none ∨
        ∃ body reason, parsed = some body ∧
          validateRequest body = .invalid reason) →
      (handleFetch hash db now "POST" "/send" parsed geminiR
        resendOk).hashCalls = 0 ∧
      (handleFetch hash db now "POST" "/send" parsed geminiR
        resendOk).db = db) := by
  have hm1 : (("POST" : String) == "OPTIONS") = false := by decide
  have hm2 : (("POST" : String) == "POST") = true := by decide
  have hm3 : (("/send" : String) == "/send") = true := by decide
  constructor
  · rintro body data rfl hvalid
    simp only [handleFetch, hm1, hm2, hm3, Bool.not_true, Bool.or_self,
      if_false, Bool.false_eq_true, reduceIte, hvalid]
    simp only [handleSend]
    cases hcr : checkRateLimit db now (hash data.sender_token) with
    | mk within db1 =>
      have hsends : db1.sends = db.sends := by
        have h := checkRateLimit_sends_eq db now (hash data.sender_token)
        rw [hcr] at h
        exact h
      cases within with
      | false =>
        exact ⟨"rejected", by simp [logSend, hsends], rfl⟩
      | true =>
        cases hfil : filterMessage data.message geminiR with
        | false =>
          exact ⟨"rejected", by simp [logSend, hsends], rfl⟩
        | true =>
          cases resendOk with
          | false =>
            exact ⟨"error", by simp [logSend, sendEmail, hsends], rfl⟩
          | true =>
            exact ⟨"sent", by simp [logSend, sendEmail, hsends], rfl⟩
  · rintro (rfl | ⟨body, reason, rfl, hinvalid⟩)
    · exact ⟨rfl, rfl⟩
    · simp only [handleFetch, hm1, hm2, hm3, Bool.not_true, Bool.or_self,
        if_false, Bool.false_eq_true, reduceIte, hinvalid]
      constructor <;> trivial

/-- A well-formed request payload. -/
def validBody : JSValue :=
  .obj [("message", .str "Thank you for everything"),
        ("recipient_email", .str "recipient@example.com"),
        ("context_tag", .str "mentor"),
        ("sender_token", .str "token-123")]

/-- Witness for C4: the success path writes one `sent` record; an
unparseable body writes nothing and hashes nothing. -/
theorem handleFetch_audit_once_witness :
    (∃ st,
      (handleFetch (fun s => s) ⟨[], []⟩ 0 "POST" "/send" (some validBody)
          (.success (some "ALLOW")) true).db.sends
        = (⟨[], []⟩ : DBState).sends ++ [⟨"token-123",
            extractDomain "recipient@example.com", "mentor", st, 0⟩] ∧
      specAuditStatus (handleFetch (fun s => s) ⟨[], []⟩ 0 "POST" "/send"
        (some validBody) (.success (some "ALLOW")) true).resp = some st) ∧
    ((handleFetch (fun s => s) ⟨[], []⟩ 0 "POST" "/send" none
        (.success (some "ALLOW")) true).hashCalls = 0 ∧
     (handleFetch (fun s => s) ⟨[], []⟩ 0 "POST" "/send" none
        (.success (some "ALLOW")) true).db = ⟨[], []⟩) :=
  ⟨(handleFetch_audit_once (fun s => s) ⟨[], []⟩ 0 (some validBody)
      (.success (some "ALLOW")) true).1 validBody
      ⟨"Thank you for everything", "recipient@example.com", "mentor",
        "token-123"⟩ rfl rfl,
   (handleFetch_audit_once (fun s => s) ⟨[], []⟩ 0 none
      (.success (some "ALLOW")) true).2 (Or.inl rfl)⟩

/-- Counterexample to C5: an `OPTIONS` request to a path other than `/send`
is not `POST /send`, so the claim demands a 404 — but the handler's
preflight branch checks only the method and returns 204. -/
theorem options_any_path_counterexample :
    (handleFetch (fun s => s) ⟨[], []⟩ 0 "OPTIONS" "/other" none
      .fetchError false).resp.status = 204 ∧
    (handleFetch (fun s => s) ⟨[], []⟩ 0 "OPTIONS" "/other" none
      .fetchError false).resp.status ≠ 404 :=
  ⟨rfl, by decide⟩

/-- C5 (amended): the handler returns the 204 CORS preflight response for
every `OPTIONS` request regardless of path, and 404 for any request that is
neither `OPTIONS` nor `POST /send`; neither touches the database. -/
theorem handleFetch_routing (hash : String → String) (db : DBState)
    (now : Int) (method path : String) (parsed : Option JSValue)
    (geminiR : GeminiResult) (resendOk : Bool) :
    (method = "OPTIONS" →
      handleFetch hash db now method path parsed geminiR resendOk
        = ⟨optionsResponse, db, 0⟩) ∧
    (method ≠ "OPTIONS" → (method ≠ "POST" ∨ path ≠ "/send") →
      handleFetch hash db now method path parsed geminiR resendOk
        = ⟨notFoundResponse, db, 0⟩) := by
  constructor
  · rintro rfl
    rfl
  · intro hopt hother
    have h1 : (method == "OPTIONS") = false := beq_eq_false_iff_ne.mpr hopt
    have h2 : (!(method == "POST") || !(path == "/send")) = true := by
      rcases hother with h | h
      · simp [beq_eq_false_iff_ne.mpr h]
      · simp [beq_eq_false_iff_ne.mpr h]
    simp only [handleFetch, h1, h2, Bool.false_eq_true, reduceIte, if_true]

/-- Witness for C5 (amended): both routing branches at concrete requests. -/
theorem handleFetch_routing_witness :
    handleFetch (fun s => s) ⟨[], []⟩ 0 "OPTIONS" "/anything" none
      .fetchError false = ⟨optionsResponse, ⟨[], []⟩, 0⟩ ∧
    handleFetch (fun s => s) ⟨[], []⟩ 0 "GET" "/send" none
      .fetchError false = ⟨notFoundResponse, ⟨[], []⟩, 0⟩ :=
  ⟨(handleFetch_routing (fun s => s) ⟨[], []⟩ 0 "OPTIONS" "/anything" none
      .fetchError false).1 rfl,
   (handleFetch_routing (fun s => s) ⟨[], []⟩ 0 "GET" "/send" none
      .fetchError false).2 (by decide) (Or.inl (by decide))⟩

end StillGrateful
